import Mathlib

/-
Verification of the heightfield water simulation core of this repository
(src/js/components/water.js and src/js/components/scene.js), shallowly
embedded in Lean 4. JavaScript numbers are modelled as exact rationals
(or reals where trigonometry is involved); the GPU compute shader and the
three.js GPUComputationRenderer addon are not part of the repository
sources, so the parts of the design that live there are modelled from the
specification and marked as such in their doc comments.
-/

namespace WaterSim

/-- Grid width of the simulation heightmap, WIDTH = 128 in water.js. -/
def WIDTH : ℕ := 128

/-- World size of the water plane in scene units, BOUNDS = 512 in water.js. -/
def BOUNDS : ℚ := 512

/-- Maximum initial water height, waterMaxHeight = 10 in fillTexture. -/
def waterMaxHeight : ℚ := 10

/-- State of the octave loop inside the local function noise of fillTexture
(water.js lines 399-414): multR is the current amplitude multiplier, mult
the current frequency multiplier, r the accumulated noise value. -/
structure NoiseState where
  multR : ℚ
  mult : ℚ
  r : ℚ
  deriving DecidableEq

/-- Iteration i of the loop body in fillTexture noise (water.js lines
404-410): r += multR * simplex.noise(x*mult, y*mult); then
multR *= 0.53 + 0.025*i and mult *= 1.25. The simplex noise function of
the three.js SimplexNoise instance is passed in as a parameter. -/
def noiseStep (simplexNoise : ℚ → ℚ → ℚ) (x y : ℚ) (s : NoiseState) (i : ℕ) :
    NoiseState :=
  { r := s.r + s.multR * simplexNoise (x * s.mult) (y * s.mult)
    multR := s.multR * (53 / 100 + 1 / 40 * (i : ℚ))
    mult := s.mult * (5 / 4) }

/-- The function noise(x, y) in fillTexture: 15 octaves of simplex noise,
starting from multR = waterMaxHeight, mult = 0.025, r = 0. -/
def noise (simplexNoise : ℚ → ℚ → ℚ) (x y : ℚ) : ℚ :=
  ((List.range 15).foldl (noiseStep simplexNoise x y)
    { multR := waterMaxHeight, mult := 1 / 40, r := 0 }).r

/-- One RGBA cell written by fillTexture (water.js lines 419-435): channel 0
is the noise height at (x, y) with x = i*128/WIDTH and y = j*128/WIDTH,
channel 1 copies channel 0, channel 2 is 0, channel 3 is 1. -/
def fillCell (simplexNoise : ℚ → ℚ → ℚ) (i j : ℕ) : Fin 4 → ℚ :=
  let x : ℚ := (i : ℚ) * 128 / (WIDTH : ℚ)
  let y : ℚ := (j : ℚ) * 128 / (WIDTH : ℚ)
  let c0 := noise simplexNoise x y
  fun c =>
    match c with
    | 0 => c0
    | 1 => c0
    | 2 => 0
    | 3 => 1

/-- The four pixel entries of cell (i, j) in write order. -/
def cellPixels (simplexNoise : ℚ → ℚ → ℚ) (i j : ℕ) : List ℚ :=
  [fillCell simplexNoise i j 0, fillCell simplexNoise i j 1,
   fillCell simplexNoise i j 2, fillCell simplexNoise i j 3]

/-- The whole initial heightmap texture data laid out as fillTexture writes
it: the outer loop runs over rows j, the inner loop over columns i, and
each cell contributes its four channels in order. -/
def fillTexture (simplexNoise : ℚ → ℚ → ℚ) : List ℚ :=
  ((List.range WIDTH).map fun j =>
    ((List.range WIDTH).map fun i => cellPixels simplexNoise i j).flatten).flatten

/-- Amplitude multiplier of octave i as the specification states it: starts
at the max-height constant (10 units) and is multiplied after octave i by
the factor 0.53 + 0.025*i. -/
def octaveAmp : ℕ → ℚ
  | 0 => waterMaxHeight
  | n + 1 => octaveAmp n * (53 / 100 + 1 / 40 * (n : ℚ))

/-- Frequency multiplier of octave i as the specification states it: starts
at 0.025 and is multiplied by 1.25 after each octave. -/
def octaveFreq : ℕ → ℚ
  | 0 => 1 / 40
  | n + 1 => octaveFreq n * (5 / 4)

/-- Kinematic state of the sphere agent: the accumulated angle along its
circular path and its world position. -/
structure Agent where
  currentAngle : ℝ
  posX : ℝ
  posY : ℝ
  posZ : ℝ

/-- stepAgent (water.js lines 152-166): the agent moves on a circle of
radius BOUNDS/4; speed = 2*pi*radius/2, the angle advances by
speed*deltaTime/radius, the x and z coordinates are set from the new
angle, and the y coordinate is not touched. -/
noncomputable def stepAgent (deltaTime : ℝ) (a : Agent) : Agent :=
  let radius : ℝ := 512 / 4
  let speed : ℝ := 2 * Real.pi * radius / 2
  let angle : ℝ := a.currentAngle + speed * deltaTime / radius
  { currentAngle := angle
    posX := radius * Real.cos angle
    posY := a.posY
    posZ := radius * Real.sin angle }

/-- The operations of one animation frame, one constructor per statement of
MainScene.animate and MainScene.render (water.js lines 138-189). -/
inductive FrameOp where
  | scheduleNext
  | computeElapsed
  | kinematicUpdate
  | simStep
  | writeWaterHeightmap
  | writeWaterCameraPos
  | writeWaterAgentPosition
  | writeWaterTfAgentToWorld
  | writeHmAgentPosition
  | writeHmTfWaterToWorld
  | writeAgentHeightmap
  | writeAgentTfAgentToWorld
  | draw
  | statsUpdate
  deriving DecidableEq

/-- Statement order of MainScene.render (water.js lines 169-189):
gpuCompute.compute() first, then the water material uniform writes, then
the two heightmap (simulation) uniform writes, then the agent material
uniform writes, then renderer.render. -/
def renderTrace : List FrameOp :=
  [.simStep, .writeWaterHeightmap, .writeWaterCameraPos,
   .writeWaterAgentPosition, .writeWaterTfAgentToWorld,
   .writeHmAgentPosition, .writeHmTfWaterToWorld,
   .writeAgentHeightmap, .writeAgentTfAgentToWorld, .draw]

/-- Statement order of MainScene.animate (water.js lines 138-150):
requestAnimationFrame scheduling, elapsed-time computation, stepAgent,
render, stats update. -/
def frameTrace : List FrameOp :=
  [.scheduleNext, .computeElapsed, .kinematicUpdate] ++ renderTrace ++
    [.statsUpdate]

/-- Position of the first occurrence of an operation within the frame. -/
def opIndex (op : FrameOp) : ℕ := frameTrace.indexOf op

/-- Value obtained by reading the agentPosition slot of the simulation
uniforms when the agent state is a: the slot stores a reference to the
sphere position object (water.js lines 358 and 179), so a read yields the
sphere position current at read time. -/
def hmAgentPositionValue (a : Agent) : ℝ × ℝ × ℝ := (a.posX, a.posY, a.posZ)

/-- Slots of heightmapVariable.material.uniforms: the simulation parameters
set once in setWater (water.js lines 354-359), including the two slots
render writes every frame. -/
inductive SimUniform where
  | mousePos
  | mouseSize
  | viscosityConstant
  | heightCompensation
  | agentPosition
  | tfWaterToWorld
  deriving DecidableEq

/-- The simulation uniform slot a frame operation writes, if any: only the
two heightmapUniforms writes at water.js lines 179-180 touch them; the
water and agent material uniforms are different objects. -/
def simUniformWrite : FrameOp → Option SimUniform
  | .writeHmAgentPosition => some .agentPosition
  | .writeHmTfWaterToWorld => some .tfWaterToWorld
  | _ => none

/-- The simulation uniform writes one frame performs, in order. -/
def frameSimWrites : List SimUniform := frameTrace.filterMap simUniformWrite

/-- The simulation uniform writes performed over n consecutive frames. -/
def framesSimWrites (n : ℕ) : List SimUniform :=
  (List.replicate n frameSimWrites).flatten

/-- The simulation uniform slots written during initialization, in source
order (setWater, water.js lines 354-359). -/
def setupSimWrites : List SimUniform :=
  [.mousePos, .mouseSize, .viscosityConstant, .heightCompensation,
   .agentPosition, .tfWaterToWorld]

/-- The setup actions of MainScene.init (water.js lines 83-131). -/
inductive SetupStep where
  | camera
  | lights
  | renderer
  | stats
  | skybox
  | controls
  | axesHelper
  | agent
  | water
  | ground
  | walls
  | resize
  | eventsHook
  | animateStart
  deriving DecidableEq

/-- The order in which init executes its setup actions; nothing in init or
setWater returns early or throws. -/
def initSequence : List SetupStep :=
  [.camera, .lights, .renderer, .stats, .skybox, .controls, .axesHelper,
   .agent, .water, .ground, .walls, .resize, .eventsHook, .animateStart]

/-- Handling of the gpuCompute.init() result in setWater (water.js lines
362-367): a non-null error is passed to console.error and execution falls
through; a null result produces no diagnostic. -/
def setWaterDiagnostics (gpuInitError : Option String) : List String :=
  match gpuInitError with
  | some e => [e]
  | none => []

/-- Scene initialization as a function of the gpuCompute.init() result: the
executed setup steps together with the surfaced diagnostics. setWater logs
the error and returns normally, so every step of initSequence runs
regardless of the error. -/
def sceneInit (gpuInitError : Option String) : List SetupStep × List String :=
  (initSequence, setWaterDiagnostics gpuInitError)

/-- Modelled from the spec: the double-buffered simulation state realized
by the three.js GPUComputationRenderer addon, which is not part of the
repository sources. Two heightmap buffers and a cursor marking the
current one. -/
structure DoubleBuffer (α : Type) where
  buf : Fin 2 → α
  cur : Fin 2

/-- The buffer index a step writes into: the one that is not current. -/
def DoubleBuffer.writeIndex {α : Type} (db : DoubleBuffer α) : Fin 2 :=
  1 - db.cur

/-- Modelled from the spec: one simulation step through the double buffer:
read the current buffer, write the step function result into the other
buffer, then flip the cursor onto the freshly written buffer. -/
def DoubleBuffer.step {α : Type} (f : α → α) (db : DoubleBuffer α) :
    DoubleBuffer α :=
  { buf := Function.update db.buf (1 - db.cur) (f (db.buf db.cur))
    cur := 1 - db.cur }

/-- The currentTexture accessor: the buffer the cursor designates, the one
the render uniforms are filled from after a step. -/
def DoubleBuffer.currentTexture {α : Type} (db : DoubleBuffer α) : α :=
  db.buf db.cur

/-- Modelled from the spec: at initialization both render targets hold the
initial heightmap. -/
def DoubleBuffer.start {α : Type} (a : α) : DoubleBuffer α :=
  { buf := fun _ => a, cur := 0 }

/-- A 4x4 homogeneous transform over exact rationals. -/
abbrev Transform := Matrix (Fin 4) (Fin 4) ℚ

/-- The sentinel perturbation source meaning no perturbation, far outside
the grid: mousePos is initialized to (10000, 10000) in setWater. -/
def sentinelSource : ℚ × ℚ := (10000, 10000)

/-- Modelled from the spec: inversion of a transform, defined exactly when
the determinant is nonzero. -/
def invertTransform (m : Transform) : Option Transform :=
  if m.det = 0 then none else some (m.det⁻¹ • m.adjugate)

/-- Modelled from the spec: the perturbation-source mapping of the
agent-water coupling, which lives in the heightmap compute shader
(src/js/glsl/v0/heightmap.frag, not included under the repository
sources). The agent position in its local frame goes to world space
through the agent-to-world transform and back into the water grid frame
through the inverse of the water-to-world transform; if either transform
is non-invertible the mapping falls back to the sentinel. The projection
from water-frame homogeneous coordinates to grid coordinates is abstracted
as toGrid. -/
def perturbationSource (tfAgentToWorld tfWaterToWorld : Transform)
    (agentLocal : Fin 4 → ℚ) (toGrid : (Fin 4 → ℚ) → ℚ × ℚ) : ℚ × ℚ :=
  match invertTransform tfAgentToWorld, invertTransform tfWaterToWorld with
  | some _, some wInv =>
      toGrid (wInv.mulVec (tfAgentToWorld.mulVec agentLocal))
  | _, _ => sentinelSource

/-- Clamp-to-edge indexing for neighbour reads at the grid border: the
compute textures use ClampToEdgeWrapping, so out-of-range coordinates are
clamped into the grid. -/
def clampIdx (z : ℤ) : Fin WIDTH :=
  ⟨min z.toNat (WIDTH - 1), by simp only [WIDTH]; omega⟩

/-- The heightmap viewed as a grid of cell heights. -/
abbrev HeightGrid := Fin WIDTH → Fin WIDTH → ℚ

/-- Modelled from the spec: the additive perturbation term of the per-cell
update, active only within the perturbation radius of the perturbation
source; the pressure profile inside the radius is abstracted as
profile. -/
def perturbTerm (source : ℚ × ℚ) (radius : ℚ) (profile : ℚ → ℚ)
    (i j : Fin WIDTH) : ℚ :=
  let distSq := (((i : ℕ) : ℚ) - source.1) ^ 2 +
    (((j : ℕ) : ℚ) - source.2) ^ 2
  if distSq ≤ radius ^ 2 then profile distSq else 0

/-- Modelled from the spec: the per-cell rule of the heightfield compute
shader (src/js/glsl/v0/heightmap.frag, not included under the repository
sources): the new height of a cell is the viscosity-damped average of the
four neighbour heights of the previous state, plus the height compensation
bias, plus the perturbation term. -/
def cellStep (prev : HeightGrid) (source : ℚ × ℚ)
    (radius viscosity compensation : ℚ) (profile : ℚ → ℚ)
    (i j : Fin WIDTH) : ℚ :=
  let avg := (prev (clampIdx (((i : ℕ) : ℤ) - 1)) j +
      prev (clampIdx (((i : ℕ) : ℤ) + 1)) j +
      prev i (clampIdx (((j : ℕ) : ℤ) - 1)) +
      prev i (clampIdx (((j : ℕ) : ℤ) + 1))) / 4
  viscosity * avg + compensation + perturbTerm source radius profile i j

theorem noise_loop_spec (f : ℚ → ℚ → ℚ) (x y : ℚ) (n : ℕ) :
    (List.range n).foldl (noiseStep f x y)
        { multR := waterMaxHeight, mult := 1 / 40, r := 0 } =
      { multR := octaveAmp n, mult := octaveFreq n,
        r := ∑ k ∈ Finset.range n,
          octaveAmp k * f (x * octaveFreq k) (y * octaveFreq k) } := by
  induction n with
  | zero => simp [octaveAmp, octaveFreq]
  | succ n ih =>
      rw [List.range_succ, List.foldl_append, ih]
      simp only [List.foldl_cons, List.foldl_nil, noiseStep,
        Finset.sum_range_succ]
      rfl

theorem noise_congr (f g : ℚ → ℚ → ℚ) (h : ∀ x y, f x y = g x y) (x y : ℚ) :
    noise f x y = noise g x y := by
  unfold noise
  rw [noise_loop_spec, noise_loop_spec]
  simp [h]

theorem fillCell_congr (f g : ℚ → ℚ → ℚ) (h : ∀ x y, f x y = g x y)
    (i j : ℕ) (c : Fin 4) : fillCell f i j c = fillCell g i j c := by
  unfold fillCell
  rcases c with ⟨cv, hc⟩
  interval_cases cv <;> simp [noise_congr f g h]

/-- C2: the initial noise height at grid coordinate (x, y) is the sum of 15
octaves of 2D simplex noise, with the amplitude multiplier starting at the
max-height constant 10 and multiplied after octave i by 0.53 + 0.025*i,
and the frequency multiplier starting at 0.025 and multiplied by 1.25
after each octave. -/
theorem initial_noise_octave_sum (f : ℚ → ℚ → ℚ) (i j : Fin WIDTH) :
    fillCell f i j 0 =
      ∑ k ∈ Finset.range 15,
        octaveAmp k * f ((i : ℚ) * octaveFreq k) ((j : ℚ) * octaveFreq k) := by
  have hx : ((i : ℕ) : ℚ) * 128 / (WIDTH : ℚ) = ((i : ℕ) : ℚ) := by
    norm_num [WIDTH]
  have hy : ((j : ℕ) : ℚ) * 128 / (WIDTH : ℚ) = ((j : ℕ) : ℚ) := by
    norm_num [WIDTH]
  show noise f _ _ = _
  rw [hx, hy]
  unfold noise
  rw [noise_loop_spec]

/-- C3: the initial heightmap is a deterministic function of the seed. The
seed enters only through the simplex noise function the SimplexNoise
instance realizes, so two runs whose seeds induce the same noise function
produce the same heightmap data, entry for entry. -/
theorem initial_heightmap_deterministic (f g : ℚ → ℚ → ℚ)
    (h : ∀ x y, f x y = g x y) : fillTexture f = fillTexture g := by
  unfold fillTexture
  congr 1
  apply List.map_congr_left
  intro j hj
  congr 1
  apply List.map_congr_left
  intro i hi
  unfold cellPixels
  simp [fillCell_congr f g h]

/-- Witness for C3: two syntactically different but pointwise equal noise
functions yield identical initial heightmap data. -/
theorem initial_heightmap_deterministic_witness :
    fillTexture (fun x y => x * y) = fillTexture (fun x y => y * x) :=
  initial_heightmap_deterministic _ _ fun x y => mul_comm x y

/-- C9: in the initial heightmap written at setup, channel 1 of every cell
equals channel 0 (the noise height), channel 2 equals 0, and channel 3 is
the reserved constant 1, for all WIDTH by WIDTH cells. -/
theorem initial_channels (f : ℚ → ℚ → ℚ) (i j : Fin WIDTH) :
    fillCell f i j 1 = fillCell f i j 0 ∧
      fillCell f i j 2 = 0 ∧ fillCell f i j 3 = 1 :=
  ⟨rfl, rfl, rfl⟩

/-- C10: for every elapsed-time value, stepAgent leaves the y coordinate of
the agent unchanged, keeps its (x, z) position on the circle of radius
BOUNDS/4 = 128 centred at the origin, and advances the angle by pi radians
per second of elapsed time. -/
theorem stepAgent_circle (dt : ℝ) (a : Agent) :
    (stepAgent dt a).posY = a.posY ∧
      (stepAgent dt a).posX ^ 2 + (stepAgent dt a).posZ ^ 2 = 128 ^ 2 ∧
      (stepAgent dt a).currentAngle = a.currentAngle + Real.pi * dt := by
  refine ⟨rfl, ?_, ?_⟩
  · show (512 / 4 * Real.cos
        (a.currentAngle + 2 * Real.pi * (512 / 4) / 2 * dt / (512 / 4))) ^ 2 +
      (512 / 4 * Real.sin
        (a.currentAngle + 2 * Real.pi * (512 / 4) / 2 * dt / (512 / 4))) ^ 2 =
      128 ^ 2
    have h := Real.cos_sq_add_sin_sq
      (a.currentAngle + 2 * Real.pi * (512 / 4) / 2 * dt / (512 / 4))
    nlinarith [h]
  · show a.currentAngle + 2 * Real.pi * (512 / 4) / 2 * dt / (512 / 4) =
      a.currentAngle + Real.pi * dt
    ring

/-- C1 counterexample: in the executed frame order the write of the
perturbation-source uniform (heightmapUniforms agentPosition, water.js
line 179) comes strictly after gpuCompute.compute() (line 173), so the
perturbation-source update does not happen before the simulation step of
the same frame. -/
theorem frame_order_counterexample :
    opIndex FrameOp.simStep < opIndex FrameOp.writeHmAgentPosition := by
  decide

/-- C1 amended: within a frame the operations run strictly sequentially in
the order elapsed-time computation, agent kinematic update, simulation
step, render uniform refresh together with the perturbation-source uniform
write, and only then the draw call. The perturbation-source uniform write
happens after the simulation step, but the slot aliases the sphere
position object, so the simulation step already reads the position
produced by the kinematic update of the same frame. -/
theorem frame_order_amended :
    frameTrace =
      [.scheduleNext, .computeElapsed, .kinematicUpdate, .simStep,
       .writeWaterHeightmap, .writeWaterCameraPos, .writeWaterAgentPosition,
       .writeWaterTfAgentToWorld, .writeHmAgentPosition,
       .writeHmTfWaterToWorld, .writeAgentHeightmap,
       .writeAgentTfAgentToWorld, .draw, .statsUpdate] ∧
      opIndex FrameOp.computeElapsed < opIndex FrameOp.kinematicUpdate ∧
      opIndex FrameOp.kinematicUpdate < opIndex FrameOp.simStep ∧
      opIndex FrameOp.simStep < opIndex FrameOp.writeHmAgentPosition ∧
      opIndex FrameOp.writeHmAgentPosition < opIndex FrameOp.draw ∧
      ∀ (dt : ℝ) (a : Agent),
        hmAgentPositionValue (stepAgent dt a) =
          ((stepAgent dt a).posX, (stepAgent dt a).posY,
            (stepAgent dt a).posZ) :=
  ⟨by decide, by decide, by decide, by decide, by decide, fun dt a => rfl⟩

/-- C7: after initialization the simulation parameters (mousePos sentinel,
mouseSize perturbation radius, viscosityConstant, heightCompensation; the
world-to-simulation scale BOUNDS is a compile-time define) are each
written exactly once at setup and never again: over any number of frames
the parameter slots receive zero writes, while the perturbation-source
position slot agentPosition is written exactly once per frame. -/
theorem sim_params_immutable (n : ℕ) :
    (∀ u : SimUniform, setupSimWrites.count u = 1) ∧
      (framesSimWrites n).count SimUniform.mousePos = 0 ∧
      (framesSimWrites n).count SimUniform.mouseSize = 0 ∧
      (framesSimWrites n).count SimUniform.viscosityConstant = 0 ∧
      (framesSimWrites n).count SimUniform.heightCompensation = 0 ∧
      (framesSimWrites n).count SimUniform.agentPosition = n := by
  refine ⟨by intro u; cases u <;> decide, ?_⟩
  induction n with
  | zero => decide
  | succ n ih =>
      obtain ⟨h1, h2, h3, h4, h5⟩ := ih
      have e : framesSimWrites (n + 1) = frameSimWrites ++ framesSimWrites n := by
        unfold framesSimWrites
        rw [List.replicate_succ, List.flatten_cons]
      have c1 : frameSimWrites.count SimUniform.mousePos = 0 := by decide
      have c2 : frameSimWrites.count SimUniform.mouseSize = 0 := by decide
      have c3 : frameSimWrites.count SimUniform.viscosityConstant = 0 := by
        decide
      have c4 : frameSimWrites.count SimUniform.heightCompensation = 0 := by
        decide
      have c5 : frameSimWrites.count SimUniform.agentPosition = 1 := by decide
      rw [e]
      simp only [List.count_append, h1, h2, h3, h4, h5, c1, c2, c3, c4, c5]
      refine ⟨trivial, trivial, trivial, trivial, ?_⟩
      omega

/-- C4 counterexample: when gpuCompute.init() reports a failure, setWater
only logs it, so scene setup continues past the failure: the ground and
wall setup still execute and the executed step list is the full
sequence. -/
theorem gpu_init_failure_counterexample :
    (sceneInit (some "shader compile failed")).2 =
        ["shader compile failed"] ∧
      SetupStep.ground ∈ (sceneInit (some "shader compile failed")).1 ∧
      SetupStep.walls ∈ (sceneInit (some "shader compile failed")).1 ∧
      (sceneInit (some "shader compile failed")).1 = initSequence :=
  ⟨rfl, by decide, by decide, rfl⟩

/-- C4 amended: if the compute pipeline fails to allocate or compile at
initialization, a diagnostic is surfaced via console.error, but scene
setup is not aborted: every remaining setup step still executes, and the
pipeline initialization is not retried. -/
theorem gpu_init_failure_amended (e : String) :
    sceneInit (some e) = (initSequence, [e]) ∧
      sceneInit none = (initSequence, []) :=
  ⟨rfl, rfl⟩

theorem doubleBuffer_invariant {α : Type} (f : α → α) (a : α) (n : ℕ) :
    ((DoubleBuffer.step f)^[n] (DoubleBuffer.start a)).currentTexture =
        f^[n] a ∧
      ((DoubleBuffer.step f)^[n] (DoubleBuffer.start a)).buf
          (1 - ((DoubleBuffer.step f)^[n] (DoubleBuffer.start a)).cur) =
        f^[n - 1] a := by
  induction n with
  | zero => exact ⟨rfl, rfl⟩
  | succ n ih =>
      obtain ⟨h1, h2⟩ := ih
      rw [Function.iterate_succ_apply']
      have hsub : ∀ c : Fin 2, 1 - (1 - c) = c := by decide
      have hne : ∀ c : Fin 2, c ≠ 1 - c := by decide
      set db := (DoubleBuffer.step f)^[n] (DoubleBuffer.start a) with hdb
      simp only [DoubleBuffer.step, DoubleBuffer.currentTexture] at h1 ⊢
      constructor
      · rw [Function.update_same, Function.iterate_succ_apply']
        exact congrArg f h1
      · rw [hsub, Function.update_noteq (hne db.cur), Nat.add_sub_cancel]
        exact h1

/-- C5: after any number of steps, exactly one of the two heightmap buffers
holds the output of the last step, and it is the one returned by the
currentTexture accessor that fills the render uniforms; every step writes
only into the buffer that is not current, so the renderer never reads the
buffer being written during a step. -/
theorem ping_pong_invariant {α : Type} (f : α → α) (a : α) (n : ℕ)
    (hdistinct : f^[n] a ≠ f^[n - 1] a) :
    ((DoubleBuffer.step f)^[n] (DoubleBuffer.start a)).currentTexture =
        f^[n] a ∧
      ((DoubleBuffer.step f)^[n] (DoubleBuffer.start a)).buf
          (1 - ((DoubleBuffer.step f)^[n] (DoubleBuffer.start a)).cur) ≠
        f^[n] a ∧
      ∀ db : DoubleBuffer α, db.writeIndex ≠ db.cur := by
  obtain ⟨h1, h2⟩ := doubleBuffer_invariant f a n
  refine ⟨h1, ?_, ?_⟩
  · rw [h2]
    exact fun h => hdistinct h.symm
  · intro db
    have hne : ∀ c : Fin 2, 1 - c ≠ c := by decide
    exact hne db.cur

/-- Witness for C5 with the successor function, initial value 0 and one
step: the current buffer holds the step output. -/
theorem ping_pong_invariant_witness :
    ((DoubleBuffer.step Nat.succ)^[1] (DoubleBuffer.start 0)).currentTexture =
      Nat.succ^[1] 0 :=
  (ping_pong_invariant Nat.succ 0 1 (by decide)).1

/-- C6: if the agent-to-world or the water-to-world transform has zero
determinant, the perturbation-source mapping falls back to the sentinel
meaning no perturbation, and with the sentinel source the perturbation
term of the per-cell update is zero at every grid cell for every
perturbation radius below the sentinel distance (in particular the
configured radius 20), so only previous finite heights enter the per-cell
update. -/
theorem degenerate_transform_sentinel (tfA tfW : Transform)
    (agentLocal : Fin 4 → ℚ) (toGrid : (Fin 4 → ℚ) → ℚ × ℚ)
    (hdet : tfA.det = 0 ∨ tfW.det = 0)
    (radius : ℚ) (h0 : 0 ≤ radius) (hr : radius < 9873) (profile : ℚ → ℚ) :
    perturbationSource tfA tfW agentLocal toGrid = sentinelSource ∧
      ∀ i j : Fin WIDTH,
        perturbTerm sentinelSource radius profile i j = 0 := by
  constructor
  · have key : invertTransform tfA = none ∨ invertTransform tfW = none := by
      rcases hdet with h | h
      · exact Or.inl (by unfold invertTransform; rw [if_pos h])
      · exact Or.inr (by unfold invertTransform; rw [if_pos h])
    unfold perturbationSource
    cases hA : invertTransform tfA with
    | none => rfl
    | some vA =>
        cases hW : invertTransform tfW with
        | none => rfl
        | some vW =>
            exfalso
            rcases key with k | k
            · rw [hA] at k; exact Option.noConfusion k
            · rw [hW] at k; exact Option.noConfusion k
  · intro i j
    have hi : ((i : ℕ) : ℚ) ≤ 127 := by
      have h := i.isLt
      simp only [WIDTH] at h
      exact_mod_cast Nat.le_of_lt_succ h
    have hj : ((j : ℕ) : ℚ) ≤ 127 := by
      have h := j.isLt
      simp only [WIDTH] at h
      exact_mod_cast Nat.le_of_lt_succ h
    have hip : radius ^ 2 < (((i : ℕ) : ℚ) - 10000) ^ 2 +
        (((j : ℕ) : ℚ) - 10000) ^ 2 := by
      have k1 : (9873 : ℚ) ≤ 10000 - ((i : ℕ) : ℚ) := by linarith
      have k2 : (9873 : ℚ) * 9873 ≤
          (10000 - ((i : ℕ) : ℚ)) * (10000 - ((i : ℕ) : ℚ)) :=
        mul_le_mul k1 k1 (by norm_num) (by linarith)
      have k3 : radius * radius < 9873 * 9873 := by
        have kp := mul_pos (show (0 : ℚ) < 9873 - radius by linarith)
          (show (0 : ℚ) < 9873 + radius by linarith)
        nlinarith [kp]
      nlinarith [sq_nonneg (((j : ℕ) : ℚ) - 10000), k2, k3]
    simp only [perturbTerm, sentinelSource]
    rw [if_neg (not_le.mpr hip)]

/-- Witness for C6: the zero matrix as agent-to-world transform has zero
determinant and the mapping falls back to the sentinel. -/
theorem degenerate_transform_sentinel_witness :
    perturbationSource (0 : Transform) (1 : Transform)
        (fun _ => 0) (fun v => (v 0, v 2)) = sentinelSource :=
  (degenerate_transform_sentinel 0 1 (fun _ => 0) (fun v => (v 0, v 2))
    (Or.inl (by simp)) 20 (by norm_num) (by norm_num) (fun _ => 0)).1

/-- C8: for every interior cell outside the perturbation radius, one
simulation step with viscosity constant 1 and zero height compensation
sets the new height of the cell to the unweighted average of the previous
heights of its four neighbours. -/
theorem pure_diffusion_step (prev : HeightGrid) (source : ℚ × ℚ)
    (radius : ℚ) (profile : ℚ → ℚ) (i j : Fin WIDTH)
    (hi0 : 0 < (i : ℕ)) (hi1 : (i : ℕ) < WIDTH - 1)
    (hj0 : 0 < (j : ℕ)) (hj1 : (j : ℕ) < WIDTH - 1)
    (hfar : radius ^ 2 < (((i : ℕ) : ℚ) - source.1) ^ 2 +
      (((j : ℕ) : ℚ) - source.2) ^ 2) :
    cellStep prev source radius 1 0 profile i j =
      (prev ⟨(i : ℕ) - 1, by omega⟩ j + prev ⟨(i : ℕ) + 1, by omega⟩ j +
        prev i ⟨(j : ℕ) - 1, by omega⟩ +
        prev i ⟨(j : ℕ) + 1, by omega⟩) / 4 := by
  have hi1q : (i : ℕ) < 127 := hi1
  have hj1q : (j : ℕ) < 127 := hj1
  have e1 : clampIdx (((i : ℕ) : ℤ) - 1) =
      (⟨(i : ℕ) - 1, by omega⟩ : Fin WIDTH) :=
    Fin.ext (by simp only [clampIdx, WIDTH]; omega)
  have e2 : clampIdx (((i : ℕ) : ℤ) + 1) =
      (⟨(i : ℕ) + 1, by omega⟩ : Fin WIDTH) :=
    Fin.ext (by simp only [clampIdx, WIDTH]; omega)
  have e3 : clampIdx (((j : ℕ) : ℤ) - 1) =
      (⟨(j : ℕ) - 1, by omega⟩ : Fin WIDTH) :=
    Fin.ext (by simp only [clampIdx, WIDTH]; omega)
  have e4 : clampIdx (((j : ℕ) : ℤ) + 1) =
      (⟨(j : ℕ) + 1, by omega⟩ : Fin WIDTH) :=
    Fin.ext (by simp only [clampIdx, WIDTH]; omega)
  simp only [cellStep, perturbTerm, e1, e2, e3, e4]
  split
  · exact absurd (by assumption) (not_le.mpr hfar)
  · ring

/-- Witness for C8: a concrete interior cell, a linear height grid and the
sentinel source; the step result equals the four-neighbour average. -/
theorem pure_diffusion_step_witness :
    cellStep (fun i j => ((i : ℕ) : ℚ) + ((j : ℕ) : ℚ)) (10000, 10000) 20 1 0
        (fun _ => 1) ⟨64, by decide⟩ ⟨64, by decide⟩ = 128 := by
  have h := pure_diffusion_step (fun i j => ((i : ℕ) : ℚ) + ((j : ℕ) : ℚ))
    (10000, 10000) 20 (fun _ => 1) ⟨64, by decide⟩ ⟨64, by decide⟩
    (by decide) (by decide) (by decide) (by decide) (by norm_num)
  rw [h]
  norm_num

end WaterSim
